import Mathlib

/-!
Shallow embedding of the EC2 network reconciliation core of
cluster-api-provider-aws (cloud/aws/services/ec2: vpc.go, routetables.go,
network.go).

The AWS SDK client is modelled as an oracle: each API entry point is a pure
function of the trace of calls issued so far, so a stateful provider double
(including fault injection) is expressible as a history-dependent response
function.  Every embedded service method returns its Go result together with
the extended call trace; Go pointer mutation of the caller's structs is
rendered as explicitly returned updated values.
-/

namespace CAPA

/-- `v1alpha1.VPC`: `{ID, CidrBlock}`. -/
structure VPC where
  ID : String
  CidrBlock : String
deriving DecidableEq, Repr

/-- `v1alpha1.Subnet` (the fields this core reads/writes): `{ID, IsPublic,
RouteTableID}`; `RouteTableID` is a `*string`, rendered as `Option String`. -/
structure Subnet where
  ID : String
  IsPublic : Bool
  RouteTableID : Option String
deriving DecidableEq, Repr

/-- `v1alpha1.Network`: the VPC, the optional internet gateway id and the
subnet list. -/
structure Network where
  VPC : VPC
  InternetGatewayID : Option String
  Subnets : List Subnet
deriving DecidableEq, Repr

/-- `ec2.Route`: destination plus the possible target fields, each a
`*string` rendered as `Option String`. -/
structure Route where
  DestinationCidrBlock : Option String := none
  DestinationIpv6CidrBlock : Option String := none
  EgressOnlyInternetGatewayId : Option String := none
  GatewayId : Option String := none
  InstanceId : Option String := none
  NatGatewayId : Option String := none
  NetworkInterfaceId : Option String := none
  VpcPeeringConnectionId : Option String := none
deriving DecidableEq, Repr

/-- `ec2.RouteTableAssociation`: the one field this core reads, the
associated subnet id (`nil` for a main-route-table association). -/
structure RouteTableAssociation where
  SubnetId : Option String
deriving DecidableEq, Repr

/-- `ec2.RouteTable` as returned by `DescribeRouteTables`: its id and its
association list.  The id is always populated by the provider, so it is
rendered as a plain `String`. -/
structure Ec2RouteTable where
  RouteTableId : String
  Associations : List RouteTableAssociation
deriving DecidableEq, Repr

/-- `v1alpha1.RouteTable`: `{ID}`. -/
structure RouteTable where
  ID : String
deriving DecidableEq, Repr

/-- `ec2.Vpc` as returned by `DescribeVpcs`/`CreateVpc`. -/
structure Ec2Vpc where
  VpcId : String
  CidrBlock : String
deriving DecidableEq, Repr

/-- `ec2.Filter`: `{Name, Values}`. -/
structure Filter where
  Name : String
  Values : List String
deriving DecidableEq, Repr

/-- `ec2.DescribeVpcsInput`: either tag filters or explicit vpc ids. -/
structure DescribeVpcsInput where
  Filters : List Filter := []
  VpcIds : List String := []
deriving DecidableEq, Repr

/-- The error taxonomy: `NewNotFound`, `NewConflict` (carrying the candidate
vpc list that Go embeds via `GoString`), a bare `errors.Errorf`/provider
error, and `errors.Wrapf` adding context around an inner error. -/
inductive Err where
  | notFound (msg : String)
  | conflictVpcs (msg : String) (candidates : List Ec2Vpc)
  | base (msg : String)
  | wrapped (ctx : String) (inner : Err)
deriving DecidableEq, Repr

/-- Modelled from the spec: `IsNotFound` distinguishes the `NotFound`
sentinel error kind ("Zero matches → NotFound (caller should create)");
its definition lives outside this excerpt. -/
def Err.isNotFound : Err → Bool
  | .notFound _ => true
  | _ => false

/-- One provider API call, as recorded on the trace. -/
inductive Call where
  | describeRouteTables (vpcId : String)
  | createRouteTable (vpcId : String)
  | createRoute (routeTableId : String) (route : Route)
  | associateRouteTable (routeTableId : String) (subnetId : String)
  | describeVpcs (input : DescribeVpcsInput)
  | createVpc (cidrBlock : String)
  | deleteVpc (vpcId : String)
  | waitUntilVpcAvailable (vpcId : String)
  | createTags (resourceId : String)
deriving DecidableEq, Repr

/-- The EC2 client surface used by this core.  Each entry point receives the
trace of calls already issued, so a concrete instance can behave like a
stateful provider double and inject failures at chosen points. -/
structure EC2 where
  DescribeRouteTables : List Call → String → Except Err (List Ec2RouteTable)
  CreateRouteTable : List Call → String → Except Err String
  CreateRoute : List Call → String → Route → Except Err Unit
  AssociateRouteTable : List Call → String → String → Except Err Unit
  DescribeVpcs : List Call → DescribeVpcsInput → Except Err (List Ec2Vpc)
  CreateVpc : List Call → String → Except Err Ec2Vpc
  DeleteVpc : List Call → String → Except Err Unit
  WaitUntilVpcAvailable : List Call → String → Except Err Unit

/-- The `Service`: the EC2 client plus the two collaborators defined outside
this excerpt.  `natGatewayForSubnet` is modelled from the spec: "natGatewayID
is resolved by a lookup keyed on the subnet's grouping among the full subnet
list; fails if no matching NAT gateway exists".  `createTags` is modelled from
the spec: "tag(id, ownerKey, ownerValue)", one tagging call per invocation. -/
structure Service where
  EC2 : EC2
  natGatewayForSubnet : List Subnet → Subnet → Except Err String
  createTags : List Call → String → String → Except Err Unit

/-! ## Route tables (routetables.go) -/

/-- Go map assignment `res[k] = v`: replace the binding if present, else add
it. -/
def mapInsert (m : List (String × Ec2RouteTable)) (k : String) (v : Ec2RouteTable) :
    List (String × Ec2RouteTable) :=
  match m with
  | [] => [(k, v)]
  | (k', v') :: rest => if k' = k then (k, v) :: rest else (k', v') :: mapInsert rest k v

/-- Go map read `m[k]`. -/
def mapLookup (m : List (String × Ec2RouteTable)) (k : String) : Option Ec2RouteTable :=
  match m with
  | [] => none
  | (k', v') :: rest => if k' = k then some v' else mapLookup rest k

/-- `describeVpcRouteTables`: one `DescribeRouteTables` call filtered by vpc
id; a failure is wrapped with the failing operation and the vpc id. -/
def describeVpcRouteTables (s : Service) (tr : List Call) (vpcID : String) :
    Except Err (List Ec2RouteTable) × List Call :=
  let r := s.EC2.DescribeRouteTables tr vpcID
  let tr' := tr ++ [Call.describeRouteTables vpcID]
  match r with
  | .error e =>
      (.error (.wrapped ("failed to describe route tables in vpc " ++ vpcID) e), tr')
  | .ok ts => (.ok ts, tr')

/-- The body of the inner loop of `describeVpcRouteTablesBySubnet`: skip an
association with a `nil` subnet id, otherwise write `res[*as.SubnetId] = rt`. -/
def assocInsert (rt : Ec2RouteTable) (res : List (String × Ec2RouteTable))
    (as_ : RouteTableAssociation) : List (String × Ec2RouteTable) :=
  match as_.SubnetId with
  | none => res
  | some sid => mapInsert res sid rt

/-- The pure flattening inside `describeVpcRouteTablesBySubnet`: for each
table, for each association, skip a `nil` subnet id, otherwise write
`res[*as.SubnetId] = rt` (later writes overwrite earlier ones). -/
def bySubnetMap (rts : List Ec2RouteTable) : List (String × Ec2RouteTable) :=
  rts.foldl (fun res rt => rt.Associations.foldl (assocInsert rt) res) []

/-- `describeVpcRouteTablesBySubnet`. -/
def describeVpcRouteTablesBySubnet (s : Service) (tr : List Call) (vpcID : String) :
    Except Err (List (String × Ec2RouteTable)) × List Call :=
  match describeVpcRouteTables s tr vpcID with
  | (.error e, tr') => (.error e, tr')
  | (.ok rts, tr') => (.ok (bySubnetMap rts), tr')

/-- `getDefaultPrivateRoutes`. -/
def getDefaultPrivateRoutes (natGatewayId : String) : List Route :=
  [{ DestinationCidrBlock := some "0.0.0.0/0", NatGatewayId := some natGatewayId }]

/-- `getDefaultPublicRoutes`. -/
def getDefaultPublicRoutes (internetGatewayId : String) : List Route :=
  [{ DestinationCidrBlock := some "0.0.0.0/0", GatewayId := some internetGatewayId }]

/-- The route-creation loop of `createRouteTableWithRoutes`: one `CreateRoute`
call per route, sequentially, stopping at the first failure (the failure is
wrapped naming the route table; the Go message also embeds the route's
`GoString`, elided here). -/
def createRoutes (s : Service) (routeTableId : String) :
    List Route → List Call → Except Err Unit × List Call
  | [], tr => (.ok (), tr)
  | route :: rest, tr =>
    let r := s.EC2.CreateRoute tr routeTableId route
    let tr' := tr ++ [Call.createRoute routeTableId route]
    match r with
    | .error e =>
        (.error (.wrapped ("failed to create route in route table " ++ routeTableId) e), tr')
    | .ok _ => createRoutes s routeTableId rest tr'

/-- `createRouteTableWithRoutes`: create the table, then the routes in order;
no rollback of the table or of already-created routes on failure. -/
def createRouteTableWithRoutes (s : Service) (vpc : VPC) (routes : List Route)
    (tr : List Call) : Except Err RouteTable × List Call :=
  let r := s.EC2.CreateRouteTable tr vpc.ID
  let tr' := tr ++ [Call.createRouteTable vpc.ID]
  match r with
  | .error e =>
      (.error (.wrapped ("failed to create route table in vpc " ++ vpc.ID) e), tr')
  | .ok rtId =>
    match createRoutes s rtId routes tr' with
    | (.error e, tr2) => (.error e, tr2)
    | (.ok _, tr2) => (.ok { ID := rtId }, tr2)

/-- `associateRouteTable`. -/
def associateRouteTable (s : Service) (rt : RouteTable) (subnetID : String)
    (tr : List Call) : Except Err Unit × List Call :=
  let r := s.EC2.AssociateRouteTable tr rt.ID subnetID
  let tr' := tr ++ [Call.associateRouteTable rt.ID subnetID]
  match r with
  | .error e =>
      (.error (.wrapped ("failed to associate route table " ++ rt.ID ++ " to subnet " ++ subnetID) e),
       tr')
  | .ok _ => (.ok (), tr')

/-- The per-subnet loop of `reconcileRouteTables` (lines 32-69): a subnet
already in the map is skipped untouched; otherwise the default routes are
computed (public needs the internet gateway id, private resolves a NAT
gateway), a table is created with them and associated, and the new table id
is written onto the subnet's in-memory state.  The returned list is the
subnet list after the loop's pointer mutations (unprocessed subnets are
returned unchanged on error).  The NAT lookup receives the network's
original subnet list; in Go it sees earlier iterations' `RouteTableID`
writes, which the spec-modelled grouping lookup does not depend on. -/
def reconcileRouteTablesLoop (s : Service) (netw : Network)
    (m : List (String × Ec2RouteTable)) :
    List Subnet → List Call → Except Err Unit × List Subnet × List Call
  | [], tr => (.ok (), [], tr)
  | sn :: rest, tr =>
    match mapLookup m sn.ID with
    | some _ =>
      match reconcileRouteTablesLoop s netw m rest tr with
      | (r, rest', tr') => (r, sn :: rest', tr')
    | none =>
      let routesE : Except Err (List Route) :=
        if sn.IsPublic then
          match netw.InternetGatewayID with
          | none =>
              .error (.base ("failed to create routing tables: internet gateway for " ++ netw.VPC.ID ++ " is nil"))
          | some igw => .ok (getDefaultPublicRoutes igw)
        else
          match s.natGatewayForSubnet netw.Subnets sn with
          | .error e => .error e
          | .ok natGatewayId => .ok (getDefaultPrivateRoutes natGatewayId)
      match routesE with
      | .error e => (.error e, sn :: rest, tr)
      | .ok routes =>
        match createRouteTableWithRoutes s netw.VPC routes tr with
        | (.error e, tr') => (.error e, sn :: rest, tr')
        | (.ok rt, tr') =>
          match associateRouteTable s rt sn.ID tr' with
          | (.error e, tr2) => (.error e, sn :: rest, tr2)
          | (.ok _, tr2) =>
            match reconcileRouteTablesLoop s netw m rest tr2 with
            | (r, rest', tr3) => (r, { sn with RouteTableID := some rt.ID } :: rest', tr3)

/-- `reconcileRouteTables`: build the subnet-to-table map, then run the
per-subnet loop; the resulting network carries the mutated subnet list. -/
def reconcileRouteTables (s : Service) (tr : List Call) (netw : Network) :
    Except Err Unit × Network × List Call :=
  match describeVpcRouteTablesBySubnet s tr netw.VPC.ID with
  | (.error e, tr') => (.error e, netw, tr')
  | (.ok m, tr') =>
    match reconcileRouteTablesLoop s netw m netw.Subnets tr' with
    | (r, subnets', tr2) => (r, { netw with Subnets := subnets' }, tr2)

/-! ## VPC (vpc.go) -/

/-- `defaultVpcCidr`. -/
def defaultVpcCidr : String := "10.0.0.0/16"

/-- Modelled from the spec: `addTagFilters` (defined outside this excerpt)
appends "a filter derived from the ownership tag for the given cluster
name". -/
def addTagFilters (clusterName : String) (filters : List Filter) : List Filter :=
  filters ++ [{ Name := "tag:cluster-ownership", Values := [clusterName] }]

/-- The input construction of `describeVPC` (vpc.go lines 95-102): query by
explicit id when non-empty, else by the ownership-tag filter. -/
def describeVpcsInputFor (clusterName : String) (id : String) : DescribeVpcsInput :=
  if id = "" then { Filters := addTagFilters clusterName [] }
  else { VpcIds := [id] }

/-- `describeVPC`: issue the describe and sort by match count: zero matches
is `NotFound`, more than one is `Conflict` carrying the candidates, exactly
one is returned.  A failure of the `DescribeVpcs` call itself is returned
unmodified (vpc.go line 106). -/
def describeVPC (s : Service) (tr : List Call) (clusterName : String) (id : String) :
    Except Err VPC × List Call :=
  let input := describeVpcsInputFor clusterName id
  let r := s.EC2.DescribeVpcs tr input
  let tr' := tr ++ [Call.describeVpcs input]
  match r with
  | .error e => (.error e, tr')
  | .ok vpcs =>
    match vpcs with
    | [] => (.error (.notFound ("could not find vpc " ++ id)), tr')
    | [v] => (.ok { ID := v.VpcId, CidrBlock := v.CidrBlock }, tr')
    | v1 :: v2 :: vs =>
        (.error (.conflictVpcs "found more than one vpc with supplied filters. Please clean up extra VPCs" (v1 :: v2 :: vs)),
         tr')

/-- `createVPC`: default the cidr *by writing it into the caller's struct*,
create, wait until available, tag.  The middle component of the result is the
caller's struct after the mutation (returned mutated even on the error
paths). -/
def createVPC (s : Service) (tr : List Call) (clusterName : String) (v : VPC) :
    Except Err VPC × VPC × List Call :=
  let v := if v.CidrBlock = "" then { v with CidrBlock := defaultVpcCidr } else v
  let r := s.EC2.CreateVpc tr v.CidrBlock
  let tr1 := tr ++ [Call.createVpc v.CidrBlock]
  match r with
  | .error e => (.error (.wrapped "failed to create vpc" e), v, tr1)
  | .ok out =>
    let rw := s.EC2.WaitUntilVpcAvailable tr1 out.VpcId
    let tr2 := tr1 ++ [Call.waitUntilVpcAvailable out.VpcId]
    match rw with
    | .error e => (.error (.wrapped ("failed to wait for vpc " ++ out.VpcId) e), v, tr2)
    | .ok _ =>
      let rt := s.createTags tr2 clusterName out.VpcId
      let tr3 := tr2 ++ [Call.createTags out.VpcId]
      match rt with
      | .error e => (.error (.wrapped ("failed to tag vpc " ++ out.VpcId) e), v, tr3)
      | .ok _ => (.ok { ID := out.VpcId, CidrBlock := out.CidrBlock }, v, tr3)

/-- `deleteVPC` (vpc.go lines 79-92): one `DeleteVpc` call; a failure is
wrapped with the failing operation and the vpc id. -/
def deleteVPC (s : Service) (tr : List Call) (v : VPC) :
    Except Err Unit × List Call :=
  let r := s.EC2.DeleteVpc tr v.ID
  let tr' := tr ++ [Call.deleteVpc v.ID]
  match r with
  | .error e => (.error (.wrapped ("failed to delete vpc " ++ v.ID) e), tr')
  | .ok _ => (.ok (), tr')

/-- `reconcileVPC`: locate, create on `NotFound`, adopt on success;
`vpc.DeepCopyInto(in)` makes the observed vpc the caller's struct on
success.  The middle component is the caller's struct after the call. -/
def reconcileVPC (s : Service) (tr : List Call) (clusterName : String) (inV : VPC) :
    Except Err Unit × VPC × List Call :=
  match describeVPC s tr clusterName inV.ID with
  | (.error e, tr') =>
    if e.isNotFound then
      match createVPC s tr' clusterName inV with
      | (.error e2, inV', tr2) => (.error e2, inV', tr2)
      | (.ok vpc, _, tr2) => (.ok (), vpc, tr2)
    else (.error e, inV, tr')
  | (.ok vpc, tr') => (.ok (), vpc, tr')

/-! ## Trace observers -/

/-- Count of `CreateRouteTable` calls on a trace. -/
def countCreateRouteTable (l : List Call) : Nat :=
  (l.filter fun c => match c with | .createRouteTable _ => true | _ => false).length

/-- Count of `CreateVpc` calls on a trace. -/
def countCreateVpc (l : List Call) : Nat :=
  (l.filter fun c => match c with | .createVpc _ => true | _ => false).length

/-- Count of tagging calls on a trace. -/
def countCreateTags (l : List Call) : Nat :=
  (l.filter fun c => match c with | .createTags _ => true | _ => false).length

/-- The subnet ids of the `AssociateRouteTable` calls on a trace, in order. -/
def assocSubnetIds (l : List Call) : List String :=
  l.filterMap fun c => match c with
    | .associateRouteTable _ sid => some sid
    | _ => none

/-- Whether a trace contains any creation call (route table, route, vpc) or
association call. -/
def hasCreationCall (l : List Call) : Bool :=
  l.any fun c => match c with
    | .createRouteTable _ => true
    | .createRoute _ _ => true
    | .createVpc _ => true
    | .associateRouteTable _ _ => true
    | .createTags _ => true
    | _ => false

/-! ## Map lemmas -/

/-- Whether a described route table has an association naming `sid`. -/
def hasSubnetAssoc (rt : Ec2RouteTable) (sid : String) : Bool :=
  rt.Associations.any fun a => a.SubnetId = some sid

theorem mapLookup_mapInsert (m : List (String × Ec2RouteTable)) (k : String)
    (v : Ec2RouteTable) (k' : String) :
    mapLookup (mapInsert m k v) k' = if k = k' then some v else mapLookup m k' := by
  induction m with
  | nil => simp [mapInsert, mapLookup]
  | cons hd tl ih =>
    obtain ⟨a, b⟩ := hd
    simp only [mapInsert]
    by_cases h1 : a = k
    · rw [if_pos h1]
      by_cases h2 : k = k'
      · simp [mapLookup, h2]
      · simp [mapLookup, h2, h1]
    · rw [if_neg h1]
      simp only [mapLookup]
      by_cases h2 : a = k'
      · have h3 : ¬(k = k') := fun h => h1 (h2.trans h.symm)
        simp [h2, h3]
      · simp [h2, ih]

theorem mapLookup_assoc_fold (rt : Ec2RouteTable) (l : List RouteTableAssociation)
    (m : List (String × Ec2RouteTable)) (sid : String) :
    mapLookup (l.foldl (assocInsert rt) m) sid =
      if l.any (fun a => a.SubnetId = some sid) then some rt else mapLookup m sid := by
  induction l generalizing m with
  | nil => simp
  | cons a l ih =>
    match ha : a.SubnetId with
    | none =>
      simp only [List.foldl_cons, List.any_cons, ha]
      rw [show assocInsert rt m a = m by simp [assocInsert, ha]]
      simpa using ih m
    | some s' =>
      simp only [List.foldl_cons, List.any_cons, ha]
      rw [show assocInsert rt m a = mapInsert m s' rt by simp [assocInsert, ha]]
      rw [ih]
      by_cases hrest : l.any (fun a => a.SubnetId = some sid)
      · simp [hrest]
      · by_cases hs : s' = sid
        · simp [hrest, mapLookup_mapInsert, hs]
        · simp [hrest, mapLookup_mapInsert, hs]

theorem mapLookup_bySubnet_fold (rts : List Ec2RouteTable)
    (m : List (String × Ec2RouteTable)) (sid : String) :
    mapLookup (rts.foldl (fun res rt => rt.Associations.foldl (assocInsert rt) res) m) sid =
      (rts.reverse.find? (fun rt => hasSubnetAssoc rt sid)).or (mapLookup m sid) := by
  induction rts generalizing m with
  | nil => simp
  | cons rt rts ih =>
    simp only [List.foldl_cons, List.reverse_cons]
    rw [ih, List.find?_append]
    cases hfind : rts.reverse.find? (fun rt => hasSubnetAssoc rt sid) with
    | some rt' => simp [Option.or]
    | none =>
      simp only [Option.none_or]
      rw [mapLookup_assoc_fold]
      by_cases h : hasSubnetAssoc rt sid
      · simp only [hasSubnetAssoc] at h
        simp [h, List.find?, hasSubnetAssoc]
      · simp only [hasSubnetAssoc] at h
        simp only [h, if_neg]
        simp [List.find?, hasSubnetAssoc, h]

/-- C10: the subnet-to-route-table map built by
`describeVpcRouteTablesBySubnet` is fully characterised by: looking up a
subnet id yields the LAST table in the described list having an association
naming that id (later tables silently overwrite earlier ones, no conflict is
reported), and associations whose subnet id is `nil` contribute nothing (an
id named only by `nil`-free tables is absent). -/
theorem describeVpcRouteTablesBySubnet_last_wins (rts : List Ec2RouteTable) (sid : String) :
    mapLookup (bySubnetMap rts) sid = rts.reverse.find? (fun rt => hasSubnetAssoc rt sid) := by
  rw [bySubnetMap, mapLookup_bySubnet_fold]
  cases rts.reverse.find? (fun rt => hasSubnetAssoc rt sid) <;> simp [Option.or, mapLookup]

/-- Number of target fields set on a synthesized route. -/
def targetFieldsSet (r : Route) : Nat :=
  ([r.EgressOnlyInternetGatewayId.isSome, r.GatewayId.isSome, r.InstanceId.isSome,
    r.NatGatewayId.isSome, r.NetworkInterfaceId.isSome,
    r.VpcPeeringConnectionId.isSome].count true)

/-- C4: the synthesized default route set of a public subnet is exactly one
route `0.0.0.0/0 → internet gateway` (never a NAT gateway), that of a private
subnet exactly one route `0.0.0.0/0 → NAT gateway`, and each synthesized
route has exactly one target field set. -/
theorem default_routes_single_target (igwId natId : String) :
    getDefaultPublicRoutes igwId =
      [{ DestinationCidrBlock := some "0.0.0.0/0", GatewayId := some igwId }] ∧
    getDefaultPrivateRoutes natId =
      [{ DestinationCidrBlock := some "0.0.0.0/0", NatGatewayId := some natId }] ∧
    (∀ r ∈ getDefaultPublicRoutes igwId,
      r.GatewayId = some igwId ∧ r.NatGatewayId = none ∧ targetFieldsSet r = 1) ∧
    (∀ r ∈ getDefaultPrivateRoutes natId,
      r.NatGatewayId = some natId ∧ r.GatewayId = none ∧ targetFieldsSet r = 1) := by
  refine ⟨rfl, rfl, ?_, ?_⟩ <;>
    · intro r hr
      simp only [getDefaultPublicRoutes, getDefaultPrivateRoutes, List.mem_singleton] at hr
      subst hr
      exact ⟨rfl, rfl, rfl⟩

/-! ## describeVPC case lemmas -/

theorem describeVPC_eq_error (s : Service) (tr : List Call) (cn id : String) (e : Err)
    (h : s.EC2.DescribeVpcs tr (describeVpcsInputFor cn id) = .error e) :
    describeVPC s tr cn id = (.error e, tr ++ [Call.describeVpcs (describeVpcsInputFor cn id)]) := by
  simp only [describeVPC, h]

theorem describeVPC_eq_nil (s : Service) (tr : List Call) (cn id : String)
    (h : s.EC2.DescribeVpcs tr (describeVpcsInputFor cn id) = .ok []) :
    describeVPC s tr cn id =
      (.error (.notFound ("could not find vpc " ++ id)),
       tr ++ [Call.describeVpcs (describeVpcsInputFor cn id)]) := by
  simp only [describeVPC, h]

theorem describeVPC_eq_single (s : Service) (tr : List Call) (cn id : String) (v : Ec2Vpc)
    (h : s.EC2.DescribeVpcs tr (describeVpcsInputFor cn id) = .ok [v]) :
    describeVPC s tr cn id =
      (.ok { ID := v.VpcId, CidrBlock := v.CidrBlock },
       tr ++ [Call.describeVpcs (describeVpcsInputFor cn id)]) := by
  simp only [describeVPC, h]

theorem describeVPC_eq_multi (s : Service) (tr : List Call) (cn id : String)
    (v1 v2 : Ec2Vpc) (vs : List Ec2Vpc)
    (h : s.EC2.DescribeVpcs tr (describeVpcsInputFor cn id) = .ok (v1 :: v2 :: vs)) :
    describeVPC s tr cn id =
      (.error (.conflictVpcs "found more than one vpc with supplied filters. Please clean up extra VPCs" (v1 :: v2 :: vs)),
       tr ++ [Call.describeVpcs (describeVpcsInputFor cn id)]) := by
  simp only [describeVPC, h]

theorem describeVPC_trace (s : Service) (tr : List Call) (cn id : String) :
    (describeVPC s tr cn id).2 = tr ++ [Call.describeVpcs (describeVpcsInputFor cn id)] := by
  match h : s.EC2.DescribeVpcs tr (describeVpcsInputFor cn id) with
  | .error e => rw [describeVPC_eq_error s tr cn id e h]
  | .ok [] => rw [describeVPC_eq_nil s tr cn id h]
  | .ok [v] => rw [describeVPC_eq_single s tr cn id v h]
  | .ok (v1 :: v2 :: vs) => rw [describeVPC_eq_multi s tr cn id v1 v2 vs h]

/-! ## Concrete provider doubles for witnesses -/

/-- A provider whose every call fails with a bare error. -/
def failEC2 : EC2 where
  DescribeRouteTables := fun _ _ => .error (.base "unavailable")
  CreateRouteTable := fun _ _ => .error (.base "unavailable")
  CreateRoute := fun _ _ _ => .error (.base "unavailable")
  AssociateRouteTable := fun _ _ _ => .error (.base "unavailable")
  DescribeVpcs := fun _ _ => .error (.base "unavailable")
  CreateVpc := fun _ _ => .error (.base "unavailable")
  DeleteVpc := fun _ _ => .error (.base "unavailable")
  WaitUntilVpcAvailable := fun _ _ => .error (.base "unavailable")

/-- A service over the failing provider. -/
def failService : Service where
  EC2 := failEC2
  natGatewayForSubnet := fun _ _ => .error (.base "unavailable")
  createTags := fun _ _ _ => .ok ()

/-! ## C9 -/

/-- C9: when the desired cidr is empty, `createVPC` writes the default
address block into the caller's struct before issuing the create call (the
create call's argument on the trace is already the default), and the
returned caller struct carries the default on every path, error paths
included. -/
theorem createVPC_mutates_empty_cidr (s : Service) (tr : List Call) (clusterName : String)
    (v : VPC) (h : v.CidrBlock = "") :
    (createVPC s tr clusterName v).2.1 = { v with CidrBlock := defaultVpcCidr } ∧
    ∃ rest, (createVPC s tr clusterName v).2.2 =
      tr ++ Call.createVpc defaultVpcCidr :: rest := by
  simp only [createVPC, h, if_pos]
  cases hc : s.EC2.CreateVpc tr defaultVpcCidr with
  | error e => simp
  | ok out =>
    cases hw : s.EC2.WaitUntilVpcAvailable (tr ++ [Call.createVpc defaultVpcCidr]) out.VpcId with
    | error e => simp [hw]
    | ok u =>
      cases ht : s.createTags (tr ++ [Call.createVpc defaultVpcCidr, Call.waitUntilVpcAvailable out.VpcId]) clusterName out.VpcId with
      | error e => simp [hw, ht]
      | ok u2 => simp [hw, ht]

/-- C9 witness: against the failing provider the create call errors, yet the
returned caller struct already carries the default cidr. -/
theorem createVPC_mutates_empty_cidr_witness :
    (createVPC failService [] "test-cluster" { ID := "", CidrBlock := "" }).1 =
      .error (.wrapped "failed to create vpc" (.base "unavailable")) ∧
    ((createVPC failService [] "test-cluster" { ID := "", CidrBlock := "" }).2.1 =
      { ID := "", CidrBlock := defaultVpcCidr } ∧
    ∃ rest, (createVPC failService [] "test-cluster" { ID := "", CidrBlock := "" }).2.2 =
      [] ++ Call.createVpc defaultVpcCidr :: rest) :=
  ⟨rfl, createVPC_mutates_empty_cidr failService [] "test-cluster" { ID := "", CidrBlock := "" } rfl⟩

/-! ## C3 -/

/-- C3: `describeVPC` queries by the explicit identifier when `id` is
non-empty and by the cluster's ownership-tag filter otherwise; zero matches
yields `NotFound`, exactly one match returns that vpc's id and cidr, more
than one match yields `Conflict` carrying the candidate list; and a conflict
is never auto-resolved into a creation: `reconcileVPC` propagates it having
issued only the describe call. -/
theorem describeVPC_match_count (s : Service) (tr : List Call) (clusterName id : String) :
    ((describeVPC s tr clusterName id).2 =
        tr ++ [Call.describeVpcs (describeVpcsInputFor clusterName id)]) ∧
    (id ≠ "" → describeVpcsInputFor clusterName id = { VpcIds := [id] }) ∧
    (id = "" → describeVpcsInputFor clusterName id =
      { Filters := addTagFilters clusterName [] }) ∧
    (s.EC2.DescribeVpcs tr (describeVpcsInputFor clusterName id) = .ok [] →
      (describeVPC s tr clusterName id).1 =
        .error (.notFound ("could not find vpc " ++ id))) ∧
    (∀ v, s.EC2.DescribeVpcs tr (describeVpcsInputFor clusterName id) = .ok [v] →
      (describeVPC s tr clusterName id).1 = .ok { ID := v.VpcId, CidrBlock := v.CidrBlock }) ∧
    (∀ v1 v2 vs,
      s.EC2.DescribeVpcs tr (describeVpcsInputFor clusterName id) = .ok (v1 :: v2 :: vs) →
      (describeVPC s tr clusterName id).1 =
        .error (.conflictVpcs "found more than one vpc with supplied filters. Please clean up extra VPCs" (v1 :: v2 :: vs))) ∧
    (∀ m cands inV, inV.ID = id →
      (describeVPC s tr clusterName id).1 = .error (.conflictVpcs m cands) →
      reconcileVPC s tr clusterName inV =
        (.error (.conflictVpcs m cands), inV,
         tr ++ [Call.describeVpcs (describeVpcsInputFor clusterName id)])) := by
  refine ⟨describeVPC_trace s tr clusterName id, ?_, ?_, ?_, ?_, ?_, ?_⟩
  · intro hne
    simp [describeVpcsInputFor, hne]
  · intro he
    simp [describeVpcsInputFor, he]
  · intro h
    rw [describeVPC_eq_nil s tr clusterName id h]
  · intro v h
    rw [describeVPC_eq_single s tr clusterName id v h]
  · intro v1 v2 vs h
    rw [describeVPC_eq_multi s tr clusterName id v1 v2 vs h]
  · intro m cands inV hid h
    have hpair : describeVPC s tr clusterName inV.ID =
        (.error (.conflictVpcs m cands),
         tr ++ [Call.describeVpcs (describeVpcsInputFor clusterName id)]) := by
      rw [hid]
      have := describeVPC_trace s tr clusterName id
      exact Prod.ext h this
    simp only [reconcileVPC, hpair, Err.isNotFound]
    rfl

/-! ## C8 -/

/-- Whether a failed describe result carries a context-wrapped error. -/
def vpcResultIsWrapped : Except Err VPC → Bool
  | .error (.wrapped _ _) => true
  | _ => false

/-- C8 counterexample: against a provider whose describe call fails with the
bare error `base "unavailable"`, `describeVPC` returns exactly that error,
with no contextual wrapping. -/
theorem describeVPC_bare_error_counterexample :
    (describeVPC failService [] "test-cluster" "vpc-1").1 = .error (.base "unavailable") ∧
    vpcResultIsWrapped (describeVPC failService [] "test-cluster" "vpc-1").1 = false :=
  ⟨rfl, rfl⟩

/-- C8 amended: every provider failure is wrapped with the failing operation
and resource identifier — the route-table describe, the table/route
creations, the association, the vpc creation, the availability wait, the
tagging and the vpc deletion — except the `DescribeVpcs` call issued by
`describeVPC`, whose error is propagated to the caller unmodified. -/
theorem provider_error_wrapping_amended :
    (∀ (s : Service) (tr : List Call) (vpcID : String) (e : Err),
      s.EC2.DescribeRouteTables tr vpcID = .error e →
      (describeVpcRouteTables s tr vpcID).1 =
        .error (.wrapped ("failed to describe route tables in vpc " ++ vpcID) e)) ∧
    (∀ (s : Service) (vpc : VPC) (routes : List Route) (tr : List Call) (e : Err),
      s.EC2.CreateRouteTable tr vpc.ID = .error e →
      (createRouteTableWithRoutes s vpc routes tr).1 =
        .error (.wrapped ("failed to create route table in vpc " ++ vpc.ID) e)) ∧
    (∀ (s : Service) (rtId : String) (route : Route) (rest : List Route) (tr : List Call) (e : Err),
      s.EC2.CreateRoute tr rtId route = .error e →
      (createRoutes s rtId (route :: rest) tr).1 =
        .error (.wrapped ("failed to create route in route table " ++ rtId) e)) ∧
    (∀ (s : Service) (rt : RouteTable) (sid : String) (tr : List Call) (e : Err),
      s.EC2.AssociateRouteTable tr rt.ID sid = .error e →
      (associateRouteTable s rt sid tr).1 =
        .error (.wrapped ("failed to associate route table " ++ rt.ID ++ " to subnet " ++ sid) e)) ∧
    (∀ (s : Service) (tr : List Call) (cn : String) (v : VPC) (e : Err),
      s.EC2.CreateVpc tr (if v.CidrBlock = "" then defaultVpcCidr else v.CidrBlock) = .error e →
      (createVPC s tr cn v).1 = .error (.wrapped "failed to create vpc" e)) ∧
    (∀ (s : Service) (tr : List Call) (cn : String) (v : VPC) (out : Ec2Vpc) (e : Err),
      s.EC2.CreateVpc tr (if v.CidrBlock = "" then defaultVpcCidr else v.CidrBlock) = .ok out →
      s.EC2.WaitUntilVpcAvailable
          (tr ++ [Call.createVpc (if v.CidrBlock = "" then defaultVpcCidr else v.CidrBlock)])
          out.VpcId = .error e →
      (createVPC s tr cn v).1 = .error (.wrapped ("failed to wait for vpc " ++ out.VpcId) e)) ∧
    (∀ (s : Service) (tr : List Call) (cn : String) (v : VPC) (out : Ec2Vpc) (e : Err),
      s.EC2.CreateVpc tr (if v.CidrBlock = "" then defaultVpcCidr else v.CidrBlock) = .ok out →
      s.EC2.WaitUntilVpcAvailable
          (tr ++ [Call.createVpc (if v.CidrBlock = "" then defaultVpcCidr else v.CidrBlock)])
          out.VpcId = .ok () →
      s.createTags
          (tr ++ [Call.createVpc (if v.CidrBlock = "" then defaultVpcCidr else v.CidrBlock),
                  Call.waitUntilVpcAvailable out.VpcId]) cn out.VpcId = .error e →
      (createVPC s tr cn v).1 = .error (.wrapped ("failed to tag vpc " ++ out.VpcId) e)) ∧
    (∀ (s : Service) (tr : List Call) (v : VPC) (e : Err),
      s.EC2.DeleteVpc tr v.ID = .error e →
      (deleteVPC s tr v).1 = .error (.wrapped ("failed to delete vpc " ++ v.ID) e)) ∧
    (∀ (s : Service) (tr : List Call) (cn id : String) (e : Err),
      s.EC2.DescribeVpcs tr (describeVpcsInputFor cn id) = .error e →
      (describeVPC s tr cn id).1 = .error e) := by
  refine ⟨?_, ?_, ?_, ?_, ?_, ?_, ?_, ?_, ?_⟩
  · intro s tr vpcID e h
    simp [describeVpcRouteTables, h]
  · intro s vpc routes tr e h
    simp [createRouteTableWithRoutes, h]
  · intro s rtId route rest tr e h
    simp [createRoutes, h]
  · intro s rt sid tr e h
    simp [associateRouteTable, h]
  · intro s tr cn v e h
    by_cases hcb : v.CidrBlock = ""
    · simp only [hcb, if_pos] at h
      simp [createVPC, hcb, h]
    · simp only [if_neg hcb] at h
      simp [createVPC, hcb, h]
  · intro s tr cn v out e hc hw
    by_cases hcb : v.CidrBlock = ""
    · simp only [hcb, if_pos] at hc hw
      simp [createVPC, hcb, hc, hw]
    · simp only [if_neg hcb] at hc hw
      simp [createVPC, hcb, hc, hw]
  · intro s tr cn v out e hc hw ht
    by_cases hcb : v.CidrBlock = ""
    · simp only [hcb, if_pos] at hc hw ht
      simp [createVPC, hcb, hc, hw, ht]
    · simp only [if_neg hcb] at hc hw ht
      simp [createVPC, hcb, hc, hw, ht]
  · intro s tr v e h
    simp [deleteVPC, h]
  · intro s tr cn id e h
    rw [describeVPC_eq_error s tr cn id e h]

/-! ## C5 -/

theorem countCreateTags_append (l1 l2 : List Call) :
    countCreateTags (l1 ++ l2) = countCreateTags l1 + countCreateTags l2 := by
  simp [countCreateTags, List.filter_append]

theorem countCreateVpc_append (l1 l2 : List Call) :
    countCreateVpc (l1 ++ l2) = countCreateVpc l1 + countCreateVpc l2 := by
  simp [countCreateVpc, List.filter_append]

theorem createVPC_eq_ok (s : Service) (tr : List Call) (cn : String) (v : VPC)
    (cidr : String) (out : Ec2Vpc)
    (hcidr : cidr = if v.CidrBlock = "" then defaultVpcCidr else v.CidrBlock)
    (hc : s.EC2.CreateVpc tr cidr = .ok out)
    (hw : s.EC2.WaitUntilVpcAvailable (tr ++ [Call.createVpc cidr]) out.VpcId = .ok ())
    (ht : s.createTags (tr ++ [Call.createVpc cidr, Call.waitUntilVpcAvailable out.VpcId])
        cn out.VpcId = .ok ()) :
    createVPC s tr cn v =
      (.ok { ID := out.VpcId, CidrBlock := out.CidrBlock }, { v with CidrBlock := cidr },
       tr ++ [Call.createVpc cidr, Call.waitUntilVpcAvailable out.VpcId,
              Call.createTags out.VpcId]) := by
  subst hcidr
  by_cases hcb : v.CidrBlock = ""
  · simp only [hcb, eq_self_iff_true, if_true] at hc hw ht
    simp [createVPC, hcb, hc, hw, ht]
  · simp only [if_neg hcb] at hc hw ht
    simp [createVPC, hcb, hc, hw, ht]

/-- C5: on `NotFound` for `clusterName`'s vpc, `reconcileVPC` creates using
the desired cidr defaulted to `10.0.0.0/16` when unset, waits until
available, then tags, in that order on the trace, and returns the observed
`{id, addressBlock}`; exactly one tagging call and one creation call are
issued.  On adoption (exactly one match) the provider's vpc is returned with
zero creation and zero tagging calls. -/
theorem reconcileVPC_create_and_adopt (s : Service) (tr : List Call)
    (clusterName : String) (inV : VPC) :
    (∀ out,
      s.EC2.DescribeVpcs tr (describeVpcsInputFor clusterName inV.ID) = .ok [] →
      s.EC2.CreateVpc (tr ++ [Call.describeVpcs (describeVpcsInputFor clusterName inV.ID)])
          (if inV.CidrBlock = "" then defaultVpcCidr else inV.CidrBlock) = .ok out →
      s.EC2.WaitUntilVpcAvailable
          (tr ++ [Call.describeVpcs (describeVpcsInputFor clusterName inV.ID),
                  Call.createVpc (if inV.CidrBlock = "" then defaultVpcCidr else inV.CidrBlock)])
          out.VpcId = .ok () →
      s.createTags
          (tr ++ [Call.describeVpcs (describeVpcsInputFor clusterName inV.ID),
                  Call.createVpc (if inV.CidrBlock = "" then defaultVpcCidr else inV.CidrBlock),
                  Call.waitUntilVpcAvailable out.VpcId]) clusterName out.VpcId = .ok () →
      reconcileVPC s tr clusterName inV =
        (.ok (), { ID := out.VpcId, CidrBlock := out.CidrBlock },
         tr ++ [Call.describeVpcs (describeVpcsInputFor clusterName inV.ID),
                Call.createVpc (if inV.CidrBlock = "" then defaultVpcCidr else inV.CidrBlock),
                Call.waitUntilVpcAvailable out.VpcId, Call.createTags out.VpcId]) ∧
      countCreateTags (reconcileVPC s tr clusterName inV).2.2 = countCreateTags tr + 1 ∧
      countCreateVpc (reconcileVPC s tr clusterName inV).2.2 = countCreateVpc tr + 1) ∧
    (∀ v, s.EC2.DescribeVpcs tr (describeVpcsInputFor clusterName inV.ID) = .ok [v] →
      reconcileVPC s tr clusterName inV =
        (.ok (), { ID := v.VpcId, CidrBlock := v.CidrBlock },
         tr ++ [Call.describeVpcs (describeVpcsInputFor clusterName inV.ID)]) ∧
      countCreateTags (reconcileVPC s tr clusterName inV).2.2 = countCreateTags tr ∧
      countCreateVpc (reconcileVPC s tr clusterName inV).2.2 = countCreateVpc tr) := by
  constructor
  · intro out hd hc hw ht
    have hdesc := describeVPC_eq_nil s tr clusterName inV.ID hd
    have hcre := createVPC_eq_ok s
      (tr ++ [Call.describeVpcs (describeVpcsInputFor clusterName inV.ID)]) clusterName inV
      (if inV.CidrBlock = "" then defaultVpcCidr else inV.CidrBlock) out rfl hc
      (by simpa [List.append_assoc] using hw) (by simpa [List.append_assoc] using ht)
    have hrec : reconcileVPC s tr clusterName inV =
        (.ok (), { ID := out.VpcId, CidrBlock := out.CidrBlock },
         tr ++ [Call.describeVpcs (describeVpcsInputFor clusterName inV.ID),
                Call.createVpc (if inV.CidrBlock = "" then defaultVpcCidr else inV.CidrBlock),
                Call.waitUntilVpcAvailable out.VpcId, Call.createTags out.VpcId]) := by
      simp only [reconcileVPC, hdesc, Err.isNotFound, if_pos, hcre]
      simp [List.append_assoc]
    refine ⟨hrec, ?_, ?_⟩ <;>
      simp [hrec, countCreateTags_append, countCreateVpc_append, countCreateTags, countCreateVpc]
  · intro v hd
    have hdesc := describeVPC_eq_single s tr clusterName inV.ID v hd
    have hrec : reconcileVPC s tr clusterName inV =
        (.ok (), { ID := v.VpcId, CidrBlock := v.CidrBlock },
         tr ++ [Call.describeVpcs (describeVpcsInputFor clusterName inV.ID)]) := by
      simp only [reconcileVPC, hdesc]
    refine ⟨hrec, ?_, ?_⟩ <;>
      simp [hrec, countCreateTags_append, countCreateVpc_append, countCreateTags, countCreateVpc]

/-! ## C6 -/

theorem describeVpcRouteTablesBySubnet_eq_ok (s : Service) (tr : List Call) (vpcID : String)
    (rts : List Ec2RouteTable) (h : s.EC2.DescribeRouteTables tr vpcID = .ok rts) :
    describeVpcRouteTablesBySubnet s tr vpcID =
      (.ok (bySubnetMap rts), tr ++ [Call.describeRouteTables vpcID]) := by
  simp [describeVpcRouteTablesBySubnet, describeVpcRouteTables, h]

theorem loop_all_mapped (s : Service) (netw : Network) (m : List (String × Ec2RouteTable)) :
    ∀ (sns : List Subnet) (tr : List Call),
      (∀ sn ∈ sns, (mapLookup m sn.ID).isSome) →
      reconcileRouteTablesLoop s netw m sns tr = (.ok (), sns, tr) := by
  intro sns
  induction sns with
  | nil => intro tr _; rfl
  | cons sn rest ih =>
    intro tr h
    have hsn : (mapLookup m sn.ID).isSome := h sn (List.mem_cons_self sn rest)
    match hm : mapLookup m sn.ID with
    | none => rw [hm] at hsn; cases hsn
    | some rt0 =>
      have hrest := ih tr (fun x hx => h x (List.mem_cons_of_mem sn hx))
      simp [reconcileRouteTablesLoop, hm, hrest]

/-- C6: a second reconciliation run against a provider already reflecting
the first run's result reproduces the first run's observed output and issues
zero creation calls: `reconcileVPC` adopts the previously observed vpc with
no create/tag call, and `reconcileRouteTables` with every subnet already in
the association map issues only the describe call, performing no route-table
creation, no route creation and no association for any subnet, and returns
the network unchanged. -/
theorem second_run_no_creation (s : Service) (tr : List Call) (clusterName : String) :
    (∀ (inV out1 : VPC),
      s.EC2.DescribeVpcs tr (describeVpcsInputFor clusterName inV.ID) =
        .ok [{ VpcId := out1.ID, CidrBlock := out1.CidrBlock }] →
      reconcileVPC s tr clusterName inV =
        (.ok (), out1, tr ++ [Call.describeVpcs (describeVpcsInputFor clusterName inV.ID)]) ∧
      countCreateVpc (reconcileVPC s tr clusterName inV).2.2 = countCreateVpc tr ∧
      countCreateTags (reconcileVPC s tr clusterName inV).2.2 = countCreateTags tr) ∧
    (∀ (netw : Network) (rts : List Ec2RouteTable),
      s.EC2.DescribeRouteTables tr netw.VPC.ID = .ok rts →
      (∀ sn ∈ netw.Subnets, (mapLookup (bySubnetMap rts) sn.ID).isSome) →
      reconcileRouteTables s tr netw =
        (.ok (), netw, tr ++ [Call.describeRouteTables netw.VPC.ID])) := by
  constructor
  · intro inV out1 hd
    have hdesc := describeVPC_eq_single s tr clusterName inV.ID _ hd
    have hrec : reconcileVPC s tr clusterName inV =
        (.ok (), out1, tr ++ [Call.describeVpcs (describeVpcsInputFor clusterName inV.ID)]) := by
      simp only [reconcileVPC, hdesc]
    refine ⟨hrec, ?_, ?_⟩ <;>
      simp [hrec, countCreateVpc_append, countCreateTags_append, countCreateVpc, countCreateTags]
  · intro netw rts hd hmapped
    have hby := describeVpcRouteTablesBySubnet_eq_ok s tr netw.VPC.ID rts hd
    have hloop := loop_all_mapped s netw (bySubnetMap rts) netw.Subnets
      (tr ++ [Call.describeRouteTables netw.VPC.ID]) hmapped
    simp only [reconcileRouteTables, hby, hloop]

/-! ## C7 -/

theorem loop_err_of_public_no_igw (s : Service) (netw : Network)
    (m : List (String × Ec2RouteTable)) (higw : netw.InternetGatewayID = none) :
    ∀ (sns : List Subnet) (tr : List Call),
      (∃ sn ∈ sns, sn.IsPublic = true ∧ mapLookup m sn.ID = none) →
      ∃ e, (reconcileRouteTablesLoop s netw m sns tr).1 = .error e := by
  intro sns
  induction sns with
  | nil => intro tr h; simp at h
  | cons sn rest ih =>
    intro tr h
    match hm : mapLookup m sn.ID with
    | some rt0 =>
      obtain ⟨x, hx, hpub, hunm⟩ := h
      have hx' : x ∈ rest := by
        rcases List.mem_cons.mp hx with h1 | h1
        · subst h1; rw [hm] at hunm; cases hunm
        · exact h1
      obtain ⟨e, he⟩ := ih tr ⟨x, hx', hpub, hunm⟩
      refine ⟨e, ?_⟩
      simp only [reconcileRouteTablesLoop, hm]
      exact he
    | none =>
      match hpub : sn.IsPublic with
      | true =>
        refine ⟨.base ("failed to create routing tables: internet gateway for " ++ netw.VPC.ID ++ " is nil"), ?_⟩
        simp [reconcileRouteTablesLoop, hm, hpub, higw]
      | false =>
        have hrest : ∃ x ∈ rest, x.IsPublic = true ∧ mapLookup m x.ID = none := by
          obtain ⟨x, hx, hxpub, hxunm⟩ := h
          rcases List.mem_cons.mp hx with h1 | h1
          · subst h1; rw [hpub] at hxpub; cases hxpub
          · exact ⟨x, h1, hxpub, hxunm⟩
        simp only [reconcileRouteTablesLoop, hm, hpub, Bool.false_eq_true, if_false]
        match hnat : s.natGatewayForSubnet netw.Subnets sn with
        | .error e => exact ⟨e, rfl⟩
        | .ok g =>
          dsimp only
          match hcr : createRouteTableWithRoutes s netw.VPC (getDefaultPrivateRoutes g) tr with
          | (.error e, ctr) => exact ⟨e, rfl⟩
          | (.ok rt, ctr) =>
            dsimp only
            match has : associateRouteTable s rt sn.ID ctr with
            | (.error e, atr) => exact ⟨e, rfl⟩
            | (.ok _, atr) =>
              dsimp only
              obtain ⟨e, he⟩ := ih atr hrest
              refine ⟨e, ?_⟩
              match hloop : reconcileRouteTablesLoop s netw m rest atr with
              | (r, rest', tr3) =>
                rw [hloop] at he
                exact he

theorem loop_pre_mapped_public_no_igw (s : Service) (netw : Network)
    (m : List (String × Ec2RouteTable)) (higw : netw.InternetGatewayID = none) :
    ∀ (pre : List Subnet) (snP : Subnet) (post : List Subnet) (tr : List Call),
      (∀ sn ∈ pre, (mapLookup m sn.ID).isSome) →
      snP.IsPublic = true → mapLookup m snP.ID = none →
      reconcileRouteTablesLoop s netw m (pre ++ snP :: post) tr =
        (.error (.base ("failed to create routing tables: internet gateway for " ++ netw.VPC.ID ++ " is nil")),
         pre ++ snP :: post, tr) := by
  intro pre
  induction pre with
  | nil =>
    intro snP post tr _ hpub hunm
    simp [reconcileRouteTablesLoop, hunm, hpub, higw]
  | cons sn pre ih =>
    intro snP post tr h hpub hunm
    have hsn : (mapLookup m sn.ID).isSome := h sn (List.mem_cons_self sn pre)
    match hm : mapLookup m sn.ID with
    | none => rw [hm] at hsn; cases hsn
    | some rt0 =>
      have hrec := ih snP post tr (fun x hx => h x (List.mem_cons_of_mem sn hx)) hpub hunm
      simp [reconcileRouteTablesLoop, hm, hrec]

/-- C7: when the network's internet gateway id is nil and some public subnet
has no associated route table, `reconcileRouteTables` fails; when all
subnets before the first such public subnet are already associated, it fails
with the precondition error having issued only the describe call — no
route-table creation call at all, in particular none for that subnet — and
leaves the network unchanged. -/
theorem public_subnet_requires_igw (s : Service) (tr : List Call) (netw : Network) :
    (∀ rts, s.EC2.DescribeRouteTables tr netw.VPC.ID = .ok rts →
      netw.InternetGatewayID = none →
      (∃ sn ∈ netw.Subnets, sn.IsPublic = true ∧ mapLookup (bySubnetMap rts) sn.ID = none) →
      ∃ e, (reconcileRouteTables s tr netw).1 = .error e) ∧
    (∀ rts pre snP post, s.EC2.DescribeRouteTables tr netw.VPC.ID = .ok rts →
      netw.InternetGatewayID = none →
      netw.Subnets = pre ++ snP :: post →
      (∀ sn ∈ pre, (mapLookup (bySubnetMap rts) sn.ID).isSome) →
      snP.IsPublic = true → mapLookup (bySubnetMap rts) snP.ID = none →
      reconcileRouteTables s tr netw =
        (.error (.base ("failed to create routing tables: internet gateway for " ++ netw.VPC.ID ++ " is nil")),
         netw, tr ++ [Call.describeRouteTables netw.VPC.ID]) ∧
      countCreateRouteTable (reconcileRouteTables s tr netw).2.2 = countCreateRouteTable tr) := by
  constructor
  · intro rts hd higw hex
    have hby := describeVpcRouteTablesBySubnet_eq_ok s tr netw.VPC.ID rts hd
    obtain ⟨e, he⟩ := loop_err_of_public_no_igw s netw (bySubnetMap rts) higw netw.Subnets
      (tr ++ [Call.describeRouteTables netw.VPC.ID]) hex
    refine ⟨e, ?_⟩
    simp only [reconcileRouteTables, hby]
    match hloop : reconcileRouteTablesLoop s netw (bySubnetMap rts) netw.Subnets
        (tr ++ [Call.describeRouteTables netw.VPC.ID]) with
    | (r, sns', tr') =>
      rw [hloop] at he
      exact he
  · intro rts pre snP post hd higw hsub hpre hpub hunm
    have hby := describeVpcRouteTablesBySubnet_eq_ok s tr netw.VPC.ID rts hd
    have hloop := loop_pre_mapped_public_no_igw s netw (bySubnetMap rts) higw pre snP post
      (tr ++ [Call.describeRouteTables netw.VPC.ID]) hpre hpub hunm
    have hrec : reconcileRouteTables s tr netw =
        (.error (.base ("failed to create routing tables: internet gateway for " ++ netw.VPC.ID ++ " is nil")),
         netw, tr ++ [Call.describeRouteTables netw.VPC.ID]) := by
      simp only [reconcileRouteTables, hby, hsub, hloop]
      rw [← hsub]
    refine ⟨hrec, ?_⟩
    simp [hrec, countCreateRouteTable, List.filter_append]

/-! ## C1 -/

@[simp] theorem assocSubnetIds_nil : assocSubnetIds [] = [] := rfl

@[simp] theorem assocSubnetIds_append (l1 l2 : List Call) :
    assocSubnetIds (l1 ++ l2) = assocSubnetIds l1 ++ assocSubnetIds l2 := by
  simp [assocSubnetIds]

@[simp] theorem assocSubnetIds_cons_createRouteTable (v : String) (l : List Call) :
    assocSubnetIds (Call.createRouteTable v :: l) = assocSubnetIds l := by
  simp [assocSubnetIds]

@[simp] theorem assocSubnetIds_cons_createRoute (rtId : String) (r : Route) (l : List Call) :
    assocSubnetIds (Call.createRoute rtId r :: l) = assocSubnetIds l := by
  simp [assocSubnetIds]

@[simp] theorem assocSubnetIds_cons_assoc (rtId sid : String) (l : List Call) :
    assocSubnetIds (Call.associateRouteTable rtId sid :: l) = sid :: assocSubnetIds l := by
  simp [assocSubnetIds]

@[simp] theorem assocSubnetIds_routesMap (rtId : String) (routes : List Route) :
    assocSubnetIds (routes.map fun r => Call.createRoute rtId r) = [] := by
  induction routes with
  | nil => rfl
  | cons r rest ih => simpa using ih

@[simp] theorem countCreateRouteTable_nil : countCreateRouteTable [] = 0 := rfl

@[simp] theorem countCreateRouteTable_append (l1 l2 : List Call) :
    countCreateRouteTable (l1 ++ l2) =
      countCreateRouteTable l1 + countCreateRouteTable l2 := by
  simp [countCreateRouteTable, List.filter_append]

@[simp] theorem countCreateRouteTable_cons_create (v : String) (l : List Call) :
    countCreateRouteTable (Call.createRouteTable v :: l) = countCreateRouteTable l + 1 := by
  simp [countCreateRouteTable, List.filter_cons, Nat.add_comm]

@[simp] theorem countCreateRouteTable_cons_route (rtId : String) (r : Route) (l : List Call) :
    countCreateRouteTable (Call.createRoute rtId r :: l) = countCreateRouteTable l := by
  simp [countCreateRouteTable, List.filter_cons]

@[simp] theorem countCreateRouteTable_cons_assoc (rtId sid : String) (l : List Call) :
    countCreateRouteTable (Call.associateRouteTable rtId sid :: l) = countCreateRouteTable l := by
  simp [countCreateRouteTable, List.filter_cons]

@[simp] theorem countCreateRouteTable_routesMap (rtId : String) (routes : List Route) :
    countCreateRouteTable (routes.map fun r => Call.createRoute rtId r) = 0 := by
  induction routes with
  | nil => rfl
  | cons r rest ih => simpa using ih

theorem createRoutes_ok_trace (s : Service) (rtId : String) :
    ∀ (routes : List Route) (tr tr' : List Call),
      createRoutes s rtId routes tr = (.ok (), tr') →
      tr' = tr ++ routes.map fun r => Call.createRoute rtId r := by
  intro routes
  induction routes with
  | nil =>
    intro tr tr' h
    simp only [createRoutes, Prod.mk.injEq] at h
    simp [← h.2]
  | cons route rest ih =>
    intro tr tr' h
    simp only [createRoutes] at h
    match hc : s.EC2.CreateRoute tr rtId route with
    | .error e => rw [hc] at h; simp at h
    | .ok u =>
      rw [hc] at h
      have := ih (tr ++ [Call.createRoute rtId route]) tr' h
      simp [this]

theorem createRouteTableWithRoutes_ok (s : Service) (vpc : VPC) (routes : List Route)
    (tr tr' : List Call) (rt : RouteTable)
    (h : createRouteTableWithRoutes s vpc routes tr = (.ok rt, tr')) :
    s.EC2.CreateRouteTable tr vpc.ID = .ok rt.ID ∧
    tr' = tr ++ Call.createRouteTable vpc.ID ::
      (routes.map fun r => Call.createRoute rt.ID r) := by
  simp only [createRouteTableWithRoutes] at h
  match hc : s.EC2.CreateRouteTable tr vpc.ID with
  | .error e => rw [hc] at h; simp at h
  | .ok rtId =>
    rw [hc] at h
    dsimp only at h
    match hcr : createRoutes s rtId routes (tr ++ [Call.createRouteTable vpc.ID]) with
    | (.error e, tr2) => rw [hcr] at h; simp at h
    | (.ok u, tr2) =>
      rw [hcr] at h
      simp only [Prod.mk.injEq] at h
      obtain ⟨h1, h2⟩ := h
      have hrt : rt = { ID := rtId } := by
        injection h1 with h1'
        exact h1'.symm
      subst hrt
      subst h2
      have htr := createRoutes_ok_trace s rtId routes
        (tr ++ [Call.createRouteTable vpc.ID]) tr2 hcr
      subst htr
      exact ⟨rfl, by simp⟩

theorem associateRouteTable_ok (s : Service) (rt : RouteTable) (sid : String)
    (tr tr' : List Call) (h : associateRouteTable s rt sid tr = (.ok (), tr')) :
    tr' = tr ++ [Call.associateRouteTable rt.ID sid] := by
  simp only [associateRouteTable] at h
  match ha : s.EC2.AssociateRouteTable tr rt.ID sid with
  | .error e => rw [ha] at h; simp at h
  | .ok u =>
    rw [ha] at h
    simp only [Prod.mk.injEq] at h
    exact h.2.symm

/-- The `(routeTableId, subnetId)` pairs of the association calls on a
trace, in order. -/
def assocPairs (l : List Call) : List (String × String) :=
  l.filterMap fun c => match c with
    | .associateRouteTable rtId sid => some (rtId, sid)
    | _ => none

@[simp] theorem assocPairs_nil : assocPairs [] = [] := rfl

@[simp] theorem assocPairs_append (l1 l2 : List Call) :
    assocPairs (l1 ++ l2) = assocPairs l1 ++ assocPairs l2 := by
  simp [assocPairs]

@[simp] theorem assocPairs_cons_createRouteTable (v : String) (l : List Call) :
    assocPairs (Call.createRouteTable v :: l) = assocPairs l := by
  simp [assocPairs]

@[simp] theorem assocPairs_cons_createRoute (rtId : String) (r : Route) (l : List Call) :
    assocPairs (Call.createRoute rtId r :: l) = assocPairs l := by
  simp [assocPairs]

@[simp] theorem assocPairs_cons_assoc (rtId sid : String) (l : List Call) :
    assocPairs (Call.associateRouteTable rtId sid :: l) = (rtId, sid) :: assocPairs l := by
  simp [assocPairs]

@[simp] theorem assocPairs_routesMap (rtId : String) (routes : List Route) :
    assocPairs (routes.map fun r => Call.createRoute rtId r) = [] := by
  induction routes with
  | nil => rfl
  | cons r rest ih => simpa using ih

/-- The calls a creation-path subnet contributes to the trace: create the
table, create each route against that table, associate that table to the
subnet. -/
def creationBlock (vpcId rtId snId : String) (routes : List Route) : List Call :=
  Call.createRouteTable vpcId ::
    ((routes.map fun r => Call.createRoute rtId r) ++
      [Call.associateRouteTable rtId snId])

/-- The creation-path trace shape: one block per created table.  Each block
starts with a `CreateRouteTable` call whose provider response is the block's
table id, and the block's route-creation calls and its single association
call — naming that very table and the block's subnet — complete before the
next block begins. -/
inductive Blocks (s : Service) (v : String) :
    List Call → List (Subnet × String × List Route) → List Call → Prop where
  | nil (tr : List Call) : Blocks s v tr [] []
  | cons (tr : List Call) (sn : Subnet) (rtId : String) (routes : List Route)
      (bs : List (Subnet × String × List Route)) (ext : List Call) :
      s.EC2.CreateRouteTable tr v = .ok rtId →
      Blocks s v (tr ++ creationBlock v rtId sn.ID routes) bs ext →
      Blocks s v tr ((sn, rtId, routes) :: bs) (creationBlock v rtId sn.ID routes ++ ext)

theorem blocks_assocPairs (s : Service) (v : String) (tr : List Call)
    (bs : List (Subnet × String × List Route)) (ext : List Call)
    (h : Blocks s v tr bs ext) :
    assocPairs ext = bs.map fun b => (b.2.1, b.1.ID) := by
  induction h with
  | nil _ => rfl
  | cons tr sn rtId routes bs ext hc hb ih => simp [creationBlock, ih]

theorem blocks_countCreateRouteTable (s : Service) (v : String) (tr : List Call)
    (bs : List (Subnet × String × List Route)) (ext : List Call)
    (h : Blocks s v tr bs ext) :
    countCreateRouteTable ext = bs.length := by
  induction h with
  | nil _ => rfl
  | cons tr sn rtId routes bs ext hc hb ih => simp [creationBlock, ih]

/-- The relation each input subnet bears to its output counterpart over a
successful pass: skip-path subnets are untouched (in particular their
`RouteTableID` is not populated), creation-path subnets are exactly the
input subnet with some route table id written into `RouteTableID`. -/
def subnetOutcome (m : List (String × Ec2RouteTable)) (sn sn' : Subnet) : Prop :=
  if (mapLookup m sn.ID).isSome then sn' = sn
  else ∃ rtId, sn' = { sn with RouteTableID := some rtId }

theorem loop_ok_spec (s : Service) (netw : Network) (m : List (String × Ec2RouteTable)) :
    ∀ (sns : List Subnet) (tr : List Call) (sns' : List Subnet) (tr' : List Call),
      reconcileRouteTablesLoop s netw m sns tr = (.ok (), sns', tr') →
      List.Forall₂ (subnetOutcome m) sns sns' ∧
      ∃ ext bs, tr' = tr ++ ext ∧
        Blocks s netw.VPC.ID tr bs ext ∧
        (bs.map fun b => b.1) = sns.filter (fun sn => (mapLookup m sn.ID).isNone) ∧
        sns'.filter (fun sn' => (mapLookup m sn'.ID).isNone) =
          bs.map fun b => { b.1 with RouteTableID := some b.2.1 } := by
  intro sns
  induction sns with
  | nil =>
    intro tr sns' tr' h
    simp only [reconcileRouteTablesLoop, Prod.mk.injEq] at h
    obtain ⟨-, h2, h3⟩ := h
    subst h2; subst h3
    exact ⟨List.Forall₂.nil, [], [], by simp, Blocks.nil tr, by simp, by simp⟩
  | cons sn rest ih =>
    intro tr sns' tr' h
    simp only [reconcileRouteTablesLoop] at h
    match hm : mapLookup m sn.ID with
    | some rt0 =>
      rw [hm] at h
      match hloop : reconcileRouteTablesLoop s netw m rest tr with
      | (r, rest', tr2) =>
        rw [hloop] at h
        simp only [Prod.mk.injEq] at h
        obtain ⟨h1, h2, h3⟩ := h
        subst h2; subst h3
        subst h1
        obtain ⟨hfa, ext, bs, hext, hblocks, hfst, hout⟩ := ih tr rest' tr2 hloop
        refine ⟨List.Forall₂.cons ?_ hfa, ext, bs, hext, hblocks, ?_, ?_⟩
        · simp [subnetOutcome, hm]
        · simpa [List.filter_cons, hm] using hfst
        · simpa [List.filter_cons, hm] using hout
    | none =>
      rw [hm] at h
      match hroutes : (if sn.IsPublic then
          match netw.InternetGatewayID with
          | none =>
              Except.error (Err.base ("failed to create routing tables: internet gateway for " ++ netw.VPC.ID ++ " is nil"))
          | some igw => Except.ok (getDefaultPublicRoutes igw)
        else
          match s.natGatewayForSubnet netw.Subnets sn with
          | .error e => Except.error e
          | .ok natGatewayId => Except.ok (getDefaultPrivateRoutes natGatewayId)) with
      | .error e => rw [hroutes] at h; simp at h
      | .ok routes =>
        rw [hroutes] at h
        dsimp only at h
        match hcr : createRouteTableWithRoutes s netw.VPC routes tr with
        | (.error e, tr2) => rw [hcr] at h; simp at h
        | (.ok rt, tr2) =>
          rw [hcr] at h
          dsimp only at h
          match has : associateRouteTable s rt sn.ID tr2 with
          | (.error e, tr3) => rw [has] at h; simp at h
          | (.ok u, tr3) =>
            rw [has] at h
            dsimp only at h
            match hloop : reconcileRouteTablesLoop s netw m rest tr3 with
            | (r, rest', tr4) =>
              rw [hloop] at h
              simp only [Prod.mk.injEq] at h
              obtain ⟨h1, h2, h3⟩ := h
              subst h2; subst h3
              subst h1
              obtain ⟨hcreate, htr2⟩ :=
                createRouteTableWithRoutes_ok s netw.VPC routes tr tr2 rt hcr
              have htr3 := associateRouteTable_ok s rt sn.ID tr2 tr3 has
              have htrblock : tr ++ creationBlock netw.VPC.ID rt.ID sn.ID routes = tr3 := by
                subst htr3; subst htr2
                simp [creationBlock]
              obtain ⟨hfa, ext, bs, hext, hblocks, hfst, hout⟩ := ih tr3 rest' tr4 hloop
              refine ⟨List.Forall₂.cons ?_ hfa,
                creationBlock netw.VPC.ID rt.ID sn.ID routes ++ ext,
                (sn, rt.ID, routes) :: bs, ?_, ?_, ?_, ?_⟩
              · simp only [subnetOutcome, hm, Option.isSome_none, Bool.false_eq_true,
                  if_false]
                exact ⟨rt.ID, rfl⟩
              · rw [hext, ← htrblock, List.append_assoc]
              · exact Blocks.cons tr sn rt.ID routes bs ext hcreate (htrblock ▸ hblocks)
              · simp [List.filter_cons, hm, hfst]
              · simpa [List.filter_cons, hm] using hout

/-- C1 amended: after a successful `reconcileRouteTables` pass, the pass's
creation calls decompose into one block per creation-path subnet (a subnet
not already in the association map), in list order: the block's
`CreateRouteTable` call returns the block's table id, and the block's single
association call names exactly that table and that subnet — so every route
table created during the pass is associated with exactly the one subnet it
was created for (the association calls are exactly one per created table),
and each creation-path subnet ends with `RouteTableID` equal to its block's
table id.  A subnet taken through the skip path of step 2a is returned
unchanged, so its `RouteTableID` is NOT populated and may remain nil. -/
theorem reconcileRouteTables_ok_spec (s : Service) (tr : List Call) (netw : Network)
    (rts : List Ec2RouteTable) (netw' : Network) (tr' : List Call)
    (hd : s.EC2.DescribeRouteTables tr netw.VPC.ID = .ok rts)
    (hrun : reconcileRouteTables s tr netw = (.ok (), netw', tr')) :
    List.Forall₂ (subnetOutcome (bySubnetMap rts)) netw.Subnets netw'.Subnets ∧
    ∃ ext bs, tr' = tr ++ Call.describeRouteTables netw.VPC.ID :: ext ∧
      Blocks s netw.VPC.ID (tr ++ [Call.describeRouteTables netw.VPC.ID]) bs ext ∧
      (bs.map fun b => b.1) =
        netw.Subnets.filter (fun sn => (mapLookup (bySubnetMap rts) sn.ID).isNone) ∧
      netw'.Subnets.filter (fun sn' => (mapLookup (bySubnetMap rts) sn'.ID).isNone) =
        (bs.map fun b => { b.1 with RouteTableID := some b.2.1 }) ∧
      assocPairs ext = (bs.map fun b => (b.2.1, b.1.ID)) ∧
      countCreateRouteTable ext = bs.length := by
  have hby := describeVpcRouteTablesBySubnet_eq_ok s tr netw.VPC.ID rts hd
  simp only [reconcileRouteTables, hby] at hrun
  match hloop : reconcileRouteTablesLoop s netw (bySubnetMap rts) netw.Subnets
      (tr ++ [Call.describeRouteTables netw.VPC.ID]) with
  | (r, sns', tr2) =>
    rw [hloop] at hrun
    simp only [Prod.mk.injEq] at hrun
    obtain ⟨h1, h2, h3⟩ := hrun
    subst h1
    obtain ⟨hfa, ext, bs, hext, hblocks, hfst, hout⟩ :=
      loop_ok_spec s netw (bySubnetMap rts) netw.Subnets
        (tr ++ [Call.describeRouteTables netw.VPC.ID]) sns' tr2 hloop
    refine ⟨?_, ext, bs, ?_, hblocks, hfst, ?_,
      blocks_assocPairs s netw.VPC.ID _ bs ext hblocks,
      blocks_countCreateRouteTable s netw.VPC.ID _ bs ext hblocks⟩
    · rw [← h2]
      exact hfa
    · rw [← h3, hext]
      simp
    · rw [← h2]
      exact hout

/-- A provider double whose every call succeeds: no pre-existing route
tables, created tables get id `rt-1`, created vpcs get id `vpc-new`. -/
def okEC2 : EC2 where
  DescribeRouteTables := fun _ _ => .ok []
  CreateRouteTable := fun _ _ => .ok "rt-1"
  CreateRoute := fun _ _ _ => .ok ()
  AssociateRouteTable := fun _ _ _ => .ok ()
  DescribeVpcs := fun _ _ => .ok []
  CreateVpc := fun _ cidr => .ok { VpcId := "vpc-new", CidrBlock := cidr }
  DeleteVpc := fun _ _ => .ok ()
  WaitUntilVpcAvailable := fun _ _ => .ok ()

/-- A service over the all-succeeding provider. -/
def okService : Service where
  EC2 := okEC2
  natGatewayForSubnet := fun _ _ => .ok "nat-1"
  createTags := fun _ _ _ => .ok ()

/-- A network with one public subnet `s1` carrying no in-memory route table
id. -/
def netwC1 : Network where
  VPC := { ID := "vpc-1", CidrBlock := "10.0.0.0/16" }
  InternetGatewayID := some "igw-1"
  Subnets := [{ ID := "s1", IsPublic := true, RouteTableID := none }]

/-- The all-succeeding provider, but the describe reports `s1` already
associated with route table `rt-0`. -/
def preAssociatedService : Service :=
  { okService with
    EC2 := { okEC2 with
      DescribeRouteTables := fun _ _ =>
        .ok [{ RouteTableId := "rt-0", Associations := [{ SubnetId := some "s1" }] }] } }

/-- C1 counterexample: a pass over a network whose only subnet is already
associated provider-side (skip path) succeeds, yet the subnet's in-memory
`RouteTableID` is still nil afterwards — the skip path never populates it. -/
theorem skip_path_keeps_nil_routeTableID :
    (reconcileRouteTables preAssociatedService [] netwC1).1 = .ok () ∧
    (reconcileRouteTables preAssociatedService [] netwC1).2.1.Subnets =
      [{ ID := "s1", IsPublic := true, RouteTableID := none }] :=
  ⟨rfl, rfl⟩

/-- C1 witness: a successful creation-path pass over `netwC1`. -/
theorem reconcileRouteTables_ok_spec_witness :
    List.Forall₂ (subnetOutcome (bySubnetMap ([] : List Ec2RouteTable)))
      netwC1.Subnets (reconcileRouteTables okService [] netwC1).2.1.Subnets ∧
    ∃ ext bs, (reconcileRouteTables okService [] netwC1).2.2 =
        [] ++ Call.describeRouteTables netwC1.VPC.ID :: ext ∧
      Blocks okService netwC1.VPC.ID
        ([] ++ [Call.describeRouteTables netwC1.VPC.ID]) bs ext ∧
      (bs.map fun b => b.1) =
        netwC1.Subnets.filter
          (fun sn => (mapLookup (bySubnetMap ([] : List Ec2RouteTable)) sn.ID).isNone) ∧
      (reconcileRouteTables okService [] netwC1).2.1.Subnets.filter
          (fun sn' => (mapLookup (bySubnetMap ([] : List Ec2RouteTable)) sn'.ID).isNone) =
        (bs.map fun b => { b.1 with RouteTableID := some b.2.1 }) ∧
      assocPairs ext = (bs.map fun b => (b.2.1, b.1.ID)) ∧
      countCreateRouteTable ext = bs.length :=
  reconcileRouteTables_ok_spec okService [] netwC1 []
    (reconcileRouteTables okService [] netwC1).2.1
    (reconcileRouteTables okService [] netwC1).2.2 rfl rfl

/-! ## C2 -/

/-- C2: with a two-route set `[r1, r2]` whose second create-route call
fails, `createRouteTableWithRoutes` has issued exactly the table creation
and the two route calls in order (so the table exists provider-side holding
only `r1`), returns the wrapped error, and no association call is ever
issued; and a `createRouteTableWithRoutes` failure at the first subnet makes
`reconcileRouteTables` return that error immediately: the trace ends at the
failure and no subsequent subnet is processed (the subnet list is returned
unchanged). -/
theorem createRoute_failfast (s : Service) (vpc : VPC) (r1 r2 : Route) (tr : List Call)
    (rtId : String) (e : Err)
    (h1 : s.EC2.CreateRouteTable tr vpc.ID = .ok rtId)
    (h2 : s.EC2.CreateRoute (tr ++ [Call.createRouteTable vpc.ID]) rtId r1 = .ok ())
    (h3 : s.EC2.CreateRoute (tr ++ [Call.createRouteTable vpc.ID, Call.createRoute rtId r1])
        rtId r2 = .error e) :
    createRouteTableWithRoutes s vpc [r1, r2] tr =
      (.error (.wrapped ("failed to create route in route table " ++ rtId) e),
       tr ++ [Call.createRouteTable vpc.ID, Call.createRoute rtId r1,
              Call.createRoute rtId r2]) ∧
    assocSubnetIds (tr ++ [Call.createRouteTable vpc.ID, Call.createRoute rtId r1,
        Call.createRoute rtId r2]) = assocSubnetIds tr ∧
    (∀ (netw : Network) (rts : List Ec2RouteTable) (sn : Subnet) (rest : List Subnet)
        (e2 : Err) (tr2 : List Call) (g : String) (tr0 : List Call),
      s.EC2.DescribeRouteTables tr0 netw.VPC.ID = .ok rts →
      netw.Subnets = sn :: rest →
      mapLookup (bySubnetMap rts) sn.ID = none →
      sn.IsPublic = true →
      netw.InternetGatewayID = some g →
      createRouteTableWithRoutes s netw.VPC (getDefaultPublicRoutes g)
          (tr0 ++ [Call.describeRouteTables netw.VPC.ID]) = (.error e2, tr2) →
      reconcileRouteTables s tr0 netw = (.error e2, netw, tr2)) := by
  have h3' : s.EC2.CreateRoute ((tr ++ [Call.createRouteTable vpc.ID]) ++
      [Call.createRoute rtId r1]) rtId r2 = .error e := by
    simpa [List.append_assoc] using h3
  refine ⟨?_, ?_, ?_⟩
  · simp [createRouteTableWithRoutes, h1, createRoutes, h2, h3', h3]
  · simp
  · intro netw rts sn rest e2 tr2 g tr0 hd hsub hm hpub higw hfail
    have hby := describeVpcRouteTablesBySubnet_eq_ok s tr0 netw.VPC.ID rts hd
    have hloop : reconcileRouteTablesLoop s netw (bySubnetMap rts) (sn :: rest)
        (tr0 ++ [Call.describeRouteTables netw.VPC.ID]) = (.error e2, sn :: rest, tr2) := by
      simp [reconcileRouteTablesLoop, hm, hpub, higw, hfail]
    have hrec : reconcileRouteTables s tr0 netw = (.error e2, netw, tr2) := by
      simp only [reconcileRouteTables, hby, hsub, hloop]
      rw [← hsub]
    exact hrec

/-- The all-succeeding provider, except the second and any later create-route
call fails. -/
def failSecondRouteService : Service :=
  { okService with
    EC2 := { okEC2 with
      CreateRoute := fun tr _ _ =>
        if tr.any (fun c => match c with | .createRoute _ _ => true | _ => false)
        then .error (.base "route-failure") else .ok () } }

/-- A first concrete route for the C2 witness. -/
def routeW1 : Route := { DestinationCidrBlock := some "10.0.1.0/24", GatewayId := some "igw-1" }

/-- A second concrete route for the C2 witness. -/
def routeW2 : Route := { DestinationCidrBlock := some "0.0.0.0/0", GatewayId := some "igw-1" }

/-- C2 witness: the concrete two-route failure run. -/
theorem createRoute_failfast_witness :
    createRouteTableWithRoutes failSecondRouteService
        { ID := "vpc-1", CidrBlock := "10.0.0.0/16" } [routeW1, routeW2] [] =
      (.error (.wrapped ("failed to create route in route table " ++ "rt-1")
          (.base "route-failure")),
       [] ++ [Call.createRouteTable "vpc-1", Call.createRoute "rt-1" routeW1,
              Call.createRoute "rt-1" routeW2]) :=
  (createRoute_failfast failSecondRouteService
    { ID := "vpc-1", CidrBlock := "10.0.0.0/16" } routeW1 routeW2 [] "rt-1"
    (.base "route-failure") rfl rfl rfl).1

end CAPA
